import Mathlib

/-!
Verification of the BactScout QC pipeline's decision layer.

This file shallowly embeds the pure decision logic of the pipeline:

* `bactscout/thread.py`: `blank_sample_results`, the per-metric threshold
  evaluators (`handle_fastp_results`, `handle_duplication_results`,
  `handle_n_content_results`, `handle_adapter_detection`,
  `handle_species_coverage`, `handle_genome_size`), the final-verdict
  computation `final_status_pass`, the pure core of `run_one_sample`, and the
  shape of `write_summary_file`.
* `bactscout/main.py`: `locate_read_file_pairs` (read-pair discovery).
* `bactscout/summary.py`: `summary_dir` (per-sample report merging).

Python dictionaries holding the per-sample record are represented as a fixed
structure (`SampleRecord`) with one field per key of `blank_sample_results`;
floats are embedded as rationals; status strings as the three-valued `Status`.
External tool invocations (sylph, fastp, stringMLST) and file reads are
represented by passing their parsed outputs as explicit arguments.
-/

namespace BactScout

/-- The three status strings used throughout `thread.py`. -/
inductive Status where
  | PASSED
  | WARNING
  | FAILED
deriving DecidableEq, Repr

open Status

/-- Mirror of the dictionary returned by `blank_sample_results` in
`bactscout/thread.py` (one Lean field per dictionary key, in source order).
Floats become `ℚ`, counts become `ℕ`, statuses become `Status`, and the
Python `None` default of `mlst_st` becomes `Option String`. -/
structure SampleRecord where
  sample_id : String
  a_final_status : Status
  read_total_reads : ℕ
  read_total_bases : ℕ
  read_q20_bases : ℕ
  read_q30_bases : ℕ
  read_q20_rate : ℚ
  read_q30_rate : ℚ
  read_q30_status : Status
  read_q30_message : String
  read1_mean_length : ℚ
  read2_mean_length : ℚ
  read_length_status : Status
  read_length_message : String
  gc_content : ℚ
  species : String
  species_abundance : String
  species_coverage : String
  coverage_estimate : ℚ
  genome_size_expected : ℚ
  coverage_status : Status
  coverage_message : String
  gc_content_lower : ℚ
  gc_content_upper : ℚ
  gc_content_status : Status
  gc_content_message : String
  species_status : Status
  species_message : String
  mlst_st : Option String
  mlst_status : Status
  mlst_message : String
  contamination_status : Status
  contamination_message : String
  coverage_alt_estimate : ℚ
  coverage_alt_message : String
  coverage_alt_status : Status
  genome_file_path : String
  genome_file : String
  duplication_rate : ℚ
  duplication_status : Status
  duplication_message : String
  n_content_rate : ℚ
  n_content_status : Status
  n_content_message : String
  adapter_detection_status : Status
  adapter_detection_message : String
deriving DecidableEq, Repr

/-- `blank_sample_results(sample_id)` from `bactscout/thread.py`. -/
def blank_sample_results (sampleId : String) : SampleRecord where
  sample_id := sampleId
  a_final_status := FAILED
  read_total_reads := 0
  read_total_bases := 0
  read_q20_bases := 0
  read_q30_bases := 0
  read_q20_rate := 0
  read_q30_rate := 0
  read_q30_status := FAILED
  read_q30_message := "No reads processed. Cannot determine quality metrics."
  read1_mean_length := 0
  read2_mean_length := 0
  read_length_status := FAILED
  read_length_message := "No reads processed. Cannot determine read lengths."
  gc_content := 0
  species := ""
  species_abundance := ""
  species_coverage := ""
  coverage_estimate := 0
  genome_size_expected := 0
  coverage_status := FAILED
  coverage_message := "No reads processed. Cannot estimate genome size or coverage."
  gc_content_lower := 0
  gc_content_upper := 0
  gc_content_status := FAILED
  gc_content_message := "No reads processed. Cannot determine expected GC content range."
  species_status := FAILED
  species_message := "No reads processed. Cannot determine species."
  mlst_st := none
  mlst_status := WARNING
  mlst_message := "Cannot determine MLST."
  contamination_status := FAILED
  contamination_message := "No reads processed. Cannot determine contamination."
  coverage_alt_estimate := 0
  coverage_alt_message := "No reads processed. Cannot estimate alternative coverage."
  coverage_alt_status := FAILED
  genome_file_path := ""
  genome_file := ""
  duplication_rate := 0
  duplication_status := FAILED
  duplication_message := "No reads processed. Cannot determine duplication rate."
  n_content_rate := 0
  n_content_status := FAILED
  n_content_message := "No reads processed. Cannot determine N-content."
  adapter_detection_status := FAILED
  adapter_detection_message := "No reads processed. Cannot verify adapter detection."

/-- The configuration keys read by the embedded functions; `config.get(key)`
returning `None` for an absent key is modelled with `Option`. -/
structure Config where
  q30_fail_threshold : Option ℚ := none
  q30_warn_threshold : Option ℚ := none
  read_length_fail_threshold : Option ℚ := none
  read_length_warn_threshold : Option ℚ := none
  duplication_warn_threshold : Option ℚ := none
  duplication_fail_threshold : Option ℚ := none
  n_content_threshold : Option ℚ := none
  adapter_overrep_threshold : Option ℕ := none
  coverage_fail_threshold : Option ℚ := none
  coverage_warn_threshold : Option ℚ := none
  coverage_threshold : Option ℚ := none
  contamination_fail_threshold : Option ℚ := none
  contamination_warn_threshold : Option ℚ := none
  contamination_threshold : Option ℚ := none
  gc_fail_percentage : Option ℚ := none
deriving Repr

/-- The fastp-metrics dictionary assembled by `get_fastp_results` in
`bactscout/thread.py` and then passed through the four fastp handlers (which
add the status/message keys below).  `overrepresented_sequences` stands for
`fastp_results["read1_before_filtering"]["overrepresented_sequences"]`, the
list read (with empty default) by `handle_adapter_detection`. -/
structure FastpStats where
  read_total_reads : ℕ := 0
  read_total_bases : ℕ := 0
  read_q20_bases : ℕ := 0
  read_q30_bases : ℕ := 0
  read_q20_rate : ℚ := 0
  read_q30_rate : ℚ := 0
  read1_mean_length : ℚ := 0
  read2_mean_length : ℚ := 0
  gc_content : ℚ := 0
  duplication_rate : ℚ := 0
  n_content_rate : ℚ := 0
  overrepresented_sequences : List String := []
  read_q30_status : Status := FAILED
  read_q30_message : String := ""
  read_length_status : Status := FAILED
  read_length_message : String := ""
  duplication_status : Status := FAILED
  duplication_message : String := ""
  n_content_status : Status := FAILED
  n_content_message : String := ""
  adapter_detection_status : Status := FAILED
  adapter_detection_message : String := ""
deriving DecidableEq, Repr

/-- `handle_fastp_results(fastp_results, config)` from `bactscout/thread.py`:
Q30 and read-length evaluation (higher is better, two-tier). -/
def handle_fastp_results (f : FastpStats) (c : Config) : FastpStats :=
  let q30_fail_threshold := c.q30_fail_threshold.getD (60 / 100)
  let q30_warn_threshold := c.q30_warn_threshold.getD (70 / 100)
  let q30_fail_threshold :=
    if q30_fail_threshold > 1 then q30_fail_threshold / 100 else q30_fail_threshold
  let q30_warn_threshold :=
    if q30_warn_threshold > 1 then q30_warn_threshold / 100 else q30_warn_threshold
  let read_length_fail_threshold := c.read_length_fail_threshold.getD 75
  let read_length_warn_threshold := c.read_length_warn_threshold.getD 100
  let total_reads := f.read_total_reads
  let q30_rate := f.read_q30_rate
  let f :=
    if total_reads = 0 then
      { f with read_q30_status := FAILED
               read_q30_message := "No reads processed. Cannot determine quality metrics." }
    else if q30_rate ≥ q30_fail_threshold then
      { f with read_q30_status := PASSED
               read_q30_message := s!"Q30 rate {q30_rate} meets threshold ({q30_fail_threshold})." }
    else if q30_rate ≥ q30_warn_threshold then
      { f with read_q30_status := WARNING
               read_q30_message := s!"Q30 rate {q30_rate} falls between warning ({q30_warn_threshold}) and fail ({q30_fail_threshold}) thresholds." }
    else
      { f with read_q30_status := FAILED
               read_q30_message := s!"Q30 rate {q30_rate} below warning threshold ({q30_warn_threshold})." }
  let read1_len := f.read1_mean_length
  let read2_len := f.read2_mean_length
  if total_reads = 0 then
    { f with read_length_status := FAILED
             read_length_message := "No reads processed. Cannot determine read lengths." }
  else if read1_len ≥ read_length_fail_threshold ∧ read2_len ≥ read_length_fail_threshold then
    { f with read_length_status := PASSED
             read_length_message := s!"Read1 mean length {read1_len}; Read2 mean length {read2_len} meet threshold (>{read_length_fail_threshold})." }
  else if read1_len ≥ read_length_warn_threshold ∧ read2_len ≥ read_length_warn_threshold then
    { f with read_length_status := WARNING
             read_length_message := s!"Read1 mean length {read1_len}; Read2 mean length {read2_len} falls between warning (>{read_length_warn_threshold}) and fail (>{read_length_fail_threshold}) thresholds." }
  else
    { f with read_length_status := FAILED
             read_length_message := s!"Read1 mean length {read1_len}; Read2 mean length {read2_len} below warning threshold (>{read_length_warn_threshold})." }

/-- `handle_duplication_results(fastp_results, config)` from
`bactscout/thread.py`: duplication rate, lower is better, two-tier. -/
def handle_duplication_results (f : FastpStats) (c : Config) : FastpStats :=
  let duplication_warn_threshold := c.duplication_warn_threshold.getD (20 / 100)
  let duplication_fail_threshold := c.duplication_fail_threshold.getD (30 / 100)
  let duplication_rate := f.duplication_rate
  let total_reads := f.read_total_reads
  if total_reads = 0 then
    { f with duplication_status := FAILED
             duplication_message := "No reads processed. Cannot determine duplication rate." }
  else if duplication_rate ≤ duplication_warn_threshold then
    { f with duplication_status := PASSED
             duplication_message := s!"Duplication rate {duplication_rate} ({duplication_rate * 100}%) is below warning threshold ({duplication_warn_threshold * 100}%)." }
  else if duplication_rate ≤ duplication_fail_threshold then
    { f with duplication_status := WARNING
             duplication_message := s!"Duplication rate {duplication_rate} ({duplication_rate * 100}%) falls between warning ({duplication_warn_threshold * 100}%) and fail ({duplication_fail_threshold * 100}%) thresholds. May indicate PCR bias or library complexity issues." }
  else
    { f with duplication_status := FAILED
             duplication_message := s!"Duplication rate {duplication_rate} ({duplication_rate * 100}%) exceeds fail threshold ({duplication_fail_threshold * 100}%). High PCR bias detected." }

/-- `handle_n_content_results(fastp_results, config)` from
`bactscout/thread.py`: a single threshold; exceeding it yields WARNING, and
FAILED occurs only for zero total reads. -/
def handle_n_content_results (f : FastpStats) (c : Config) : FastpStats :=
  let n_content_threshold := c.n_content_threshold.getD (1 / 1000)
  let n_content_rate := f.n_content_rate
  let total_reads := f.read_total_reads
  if total_reads = 0 then
    { f with n_content_status := FAILED
             n_content_message := "No reads processed. Cannot determine N-content." }
  else if n_content_rate ≤ n_content_threshold * 100 then
    { f with n_content_status := PASSED
             n_content_message := s!"N-content {n_content_rate}% is below threshold ({n_content_threshold * 100}%)." }
  else
    { f with n_content_status := WARNING
             n_content_message := s!"N-content {n_content_rate}% exceeds threshold ({n_content_threshold * 100}%). Indicates base-calling uncertainty." }

/-- `handle_adapter_detection(fastp_results, config)` from
`bactscout/thread.py`: counts overrepresented sequences. -/
def handle_adapter_detection (f : FastpStats) (c : Config) : FastpStats :=
  let adapter_overrep_threshold := c.adapter_overrep_threshold.getD 5
  let total_reads := f.read_total_reads
  let overrep_count := f.overrepresented_sequences.length
  if total_reads = 0 then
    { f with adapter_detection_status := FAILED
             adapter_detection_message := "No reads processed. Cannot check for adapter contamination." }
  else if overrep_count = 0 then
    { f with adapter_detection_status := PASSED
             adapter_detection_message := "No overrepresented sequences detected." }
  else if overrep_count ≤ adapter_overrep_threshold then
    { f with adapter_detection_status := WARNING
             adapter_detection_message := s!"{overrep_count} overrepresented sequence(s) detected. May indicate minor adapter contamination or repetitive sequences." }
  else
    { f with adapter_detection_status := FAILED
             adapter_detection_message := s!"{overrep_count} overrepresented sequences detected (threshold: {adapter_overrep_threshold}). Indicates significant adapter contamination or other contaminants." }

/-- `final_results.update(fastp_stats)` in `run_one_sample`: copies every key
present in the fastp-stats dictionary (the metrics from `get_fastp_results`
plus the status/message keys written by the four fastp handlers) into the
per-sample record. -/
def updateWithFastp (r : SampleRecord) (f : FastpStats) : SampleRecord :=
  { r with
    read_total_reads := f.read_total_reads
    read_total_bases := f.read_total_bases
    read_q20_bases := f.read_q20_bases
    read_q30_bases := f.read_q30_bases
    read_q20_rate := f.read_q20_rate
    read_q30_rate := f.read_q30_rate
    read1_mean_length := f.read1_mean_length
    read2_mean_length := f.read2_mean_length
    gc_content := f.gc_content
    duplication_rate := f.duplication_rate
    n_content_rate := f.n_content_rate
    read_q30_status := f.read_q30_status
    read_q30_message := f.read_q30_message
    read_length_status := f.read_length_status
    read_length_message := f.read_length_message
    duplication_status := f.duplication_status
    duplication_message := f.duplication_message
    n_content_status := f.n_content_status
    n_content_message := f.n_content_message
    adapter_detection_status := f.adapter_detection_status
    adapter_detection_message := f.adapter_detection_message }

/-- One row of the sylph species report: (species name, abundance percentage,
coverage estimate), as produced by `extract_species_from_report`. -/
abbrev SpeciesEntry := String × ℚ × ℚ

/-- Python's `round(x, 2)`.  (CPython rounds half to even; the claims proved
below never depend on the rounding direction of ties, so round-half-up on the
scaled value is used.) -/
def pyRound2 (q : ℚ) : ℚ := (round (q * 100) : ℤ) / 100

/-- Resolution of the coverage warn/fail thresholds performed at the top of
both `handle_species_coverage` and `handle_genome_size`: a missing fail
threshold falls back to the legacy `coverage_threshold` (default 30) with the
warn threshold derived as 67% of it.  A config that sets the fail threshold
but not the warn threshold would make the Python comparison raise; that
configuration is modelled as `none`. -/
def resolvedCoverageThresholds (c : Config) : Option (ℚ × ℚ) :=
  match c.coverage_fail_threshold with
  | none =>
      let fail := c.coverage_threshold.getD 30
      some (fail * (67 / 100), fail)
  | some fail =>
      match c.coverage_warn_threshold with
      | some warn => some (warn, fail)
      | none => none

/-- Resolution of the contamination warn/fail thresholds at the top of
`handle_species_coverage`: legacy fallback `contamination_threshold`
(default 10) with warn at 50% of fail.  As above, fail-without-warn is
modelled as `none`. -/
def resolvedContaminationThresholds (c : Config) : Option (ℚ × ℚ) :=
  match c.contamination_fail_threshold with
  | none =>
      let fail := c.contamination_threshold.getD 10
      some (fail * (50 / 100), fail)
  | some fail =>
      match c.contamination_warn_threshold with
      | some warn => some (warn, fail)
      | none => none

/-- `handle_species_coverage(species_abundance, final_results, config)` from
`bactscout/thread.py`.  Python's stable `sorted(..., key=abundance,
reverse=True)` is modelled by the stable `List.insertionSort` with the
reversed comparison.  Returns the updated record and the species-name list. -/
def handle_species_coverage (speciesAbundance : List SpeciesEntry)
    (r : SampleRecord) (c : Config) : Option (SampleRecord × List String) :=
  match speciesAbundance with
  | [] =>
      some ({ r with
        coverage_status := FAILED
        contamination_status := FAILED
        coverage_message := "No species detected. Cannot estimate genome size or coverage."
        gc_content_message := "No species detected. Cannot determine expected GC content range."
        species_status := FAILED
        species_message := "No species detected." }, [])
  | top_species :: _ => do
      let (coverage_warn_threshold, coverage_fail_threshold) ← resolvedCoverageThresholds c
      let (contamination_warn_threshold, contamination_fail_threshold) ←
        resolvedContaminationThresholds c
      let species :=
        (speciesAbundance.insertionSort (fun a b => b.2.1 ≤ a.2.1)).map (fun s => s.1)
      let r :=
        if species.length = 1 then
          { r with species_status := PASSED, species_message := "" }
        else
          { r with species_status := WARNING
                   species_message := "Multiple species detected. Using the top species for genome size and coverage estimation." }
      let r :=
        { r with
          species := String.intercalate ";" species
          species_abundance :=
            String.intercalate ";" (speciesAbundance.map (fun (s : SpeciesEntry) => s!"{s.2.1}"))
          species_coverage :=
            String.intercalate ";" (speciesAbundance.map (fun (s : SpeciesEntry) => s!"{s.2.2}")) }
      let r :=
        if top_species.2.2 ≥ coverage_fail_threshold then
          { r with coverage_status := PASSED
                   coverage_estimate := pyRound2 top_species.2.2
                   coverage_message := s!"Top species {top_species.1} with coverage {top_species.2.2}x meets the threshold of {coverage_fail_threshold}x." }
        else if top_species.2.2 ≥ coverage_warn_threshold then
          { r with coverage_status := WARNING
                   coverage_estimate := pyRound2 top_species.2.2
                   coverage_message := s!"Top species {top_species.1} with coverage {top_species.2.2}x falls between warning ({coverage_warn_threshold}x) and fail ({coverage_fail_threshold}x) thresholds." }
        else
          { r with coverage_estimate := pyRound2 top_species.2.2
                   coverage_message := s!"Top species {top_species.1} with coverage {top_species.2.2}x falls below warning threshold ({coverage_warn_threshold}x)."
                   coverage_status := FAILED }
      let r :=
        if top_species.2.1 > 100 - contamination_fail_threshold then
          { r with contamination_status := PASSED, contamination_message := "OK" }
        else if top_species.2.1 > 100 - contamination_warn_threshold then
          { r with contamination_status := WARNING
                   contamination_message := s!"Top species purity {top_species.2.1}% falls between warning ({100 - contamination_warn_threshold}%) and fail ({100 - contamination_fail_threshold}%) thresholds." }
        else
          { r with contamination_message := s!"Top species purity {top_species.2.1}% falls below warning threshold ({100 - contamination_warn_threshold}%)."
                   contamination_status := FAILED }
      some (r, species)

/-- `handle_genome_size(species_list, fastp_stats, final_results, config)`
from `bactscout/thread.py`.  The file lookup `get_expected_genome_size` is
passed in as `genomeLookup`, returning (expected genome size, GC lower bound,
GC upper bound) for a species name.  Python indexes `species_list[0]`, so the
empty list (never passed by the caller) is modelled as `none`. -/
def handle_genome_size (speciesList : List String) (fastpStats : FastpStats)
    (r : SampleRecord) (c : Config) (genomeLookup : String → ℚ × ℚ × ℚ) :
    Option SampleRecord :=
  match speciesList with
  | [] => none
  | species :: restSpecies => do
      let (coverage_warn_threshold, coverage_fail_threshold) ← resolvedCoverageThresholds c
      let warning := if restSpecies.length + 1 > 1 then
          "Warning: Multiple species detected. Using the top species." else ""
      let (expected_genome_size, gc_lower, gc_upper) := genomeLookup species
      let estimated_coverage :=
        if expected_genome_size > 0 ∧ fastpStats.read_total_bases > 0 then
          (fastpStats.read_total_bases : ℚ) / expected_genome_size
        else 0
      let r := { r with coverage_alt_estimate := pyRound2 estimated_coverage
                        genome_size_expected := expected_genome_size }
      let r :=
        if estimated_coverage ≥ coverage_fail_threshold then
          { r with coverage_alt_status := PASSED
                   coverage_alt_message := s!"Estimated coverage {estimated_coverage}x meets the threshold of {coverage_fail_threshold}x." ++ warning }
        else if estimated_coverage ≥ coverage_warn_threshold then
          { r with coverage_alt_status := WARNING
                   coverage_alt_message := s!"Estimated coverage {estimated_coverage}x falls between warning ({coverage_warn_threshold}x) and pass ({coverage_fail_threshold}x) thresholds." ++ warning }
        else
          { r with coverage_alt_status := FAILED
                   coverage_alt_message := s!"Estimated coverage {estimated_coverage}x below the warning threshold ({coverage_warn_threshold}x)." ++ warning }
      let r := { r with gc_content_lower := gc_lower, gc_content_upper := gc_upper }
      let gc_fail_percentage := c.gc_fail_percentage.getD 5
      let gc_fail_percentage :=
        if gc_fail_percentage > 1 then gc_fail_percentage / 100 else gc_fail_percentage
      let r :=
        if gc_lower > 0 ∧ gc_upper > 0 then
          if gc_lower ≤ fastpStats.gc_content ∧ fastpStats.gc_content ≤ gc_upper then
            { r with gc_content_status := PASSED
                     gc_content_message := s!"GC content {fastpStats.gc_content}% within expected range ({gc_lower}-{gc_upper}%)" }
          else if gc_lower - gc_lower * gc_fail_percentage ≤ fastpStats.gc_content
              ∧ fastpStats.gc_content ≤ gc_upper + gc_upper * gc_fail_percentage then
            { r with gc_content_status := WARNING
                     gc_content_message := s!"GC content {fastpStats.gc_content}% near expected range ({gc_lower}-{gc_upper}%)" }
          else
            { r with gc_content_message := s!"GC content {fastpStats.gc_content}% outside expected range ({gc_lower}-{gc_upper}%)" }
        else r
      some r

/-- `final_status_pass(final_results)` from `bactscout/thread.py`: the list of
always-critical metrics, extended with duplication and N-content when at least
one read was processed. -/
def criticalStatuses (r : SampleRecord) : List Status :=
  [r.read_length_status, r.read_q30_status, r.contamination_status, r.gc_content_status]
    ++ (if r.read_total_reads > 0 then [r.duplication_status, r.n_content_status] else [])

/-- `final_status_pass(final_results)` from `bactscout/thread.py`. -/
def final_status_pass (r : SampleRecord) : Status :=
  -- Step 1: critical metrics (loop with break on the first FAILED).
  let fs1 : Status := if (criticalStatuses r).contains FAILED then FAILED else PASSED
  -- Step 2: redundant coverage check, only when not already FAILED.
  let fs2 : Status :=
    if fs1 ≠ FAILED then
      if r.coverage_status = FAILED ∧ r.coverage_alt_status = FAILED then FAILED
      else if r.coverage_status = FAILED ∨ r.coverage_alt_status = FAILED then WARNING
      else fs1
    else fs1
  -- Step 3: warning metrics (species), only when not already FAILED.
  let fs3 : Status :=
    if fs2 ≠ FAILED then
      if r.species_status = FAILED then
        (if fs2 ≠ FAILED then WARNING else fs2)
      else if r.species_status = WARNING then
        (if fs2 = PASSED then WARNING else fs2)
      else fs2
    else fs2
  fs3

/-- The status strings as written into the summary CSV. -/
def statusStr : Status → String
  | PASSED => "PASSED"
  | WARNING => "WARNING"
  | FAILED => "FAILED"

/-- The summary header order produced by `write_summary_file` in
`bactscout/thread.py`: the two stable sorts (sample id / status-suffix /
alphabetical, then by position in `format_summary_headers()` from
`bactscout/util.py`) place every record key at its position in the preferred
list of `format_summary_headers` (all 46 record keys occur there); keys of the
preferred list that are absent from the record contribute nothing.  The
resulting order is spelled out. -/
def summaryHeaders : List String :=
  ["sample_id", "a_final_status",
   "adapter_detection_status", "contamination_status", "species_status",
   "coverage_status", "coverage_alt_status", "duplication_status",
   "gc_content_status", "mlst_status", "n_content_status",
   "read_length_status", "read_q30_status",
   "species", "species_abundance", "species_coverage", "species_message",
   "contamination_message",
   "coverage_estimate", "coverage_message", "coverage_alt_estimate",
   "coverage_alt_message", "duplication_rate", "duplication_message",
   "gc_content", "gc_content_lower", "gc_content_upper", "gc_content_message",
   "n_content_rate", "n_content_message",
   "mlst_st", "mlst_message",
   "read1_mean_length", "read2_mean_length", "read_length_message",
   "read_q20_bases", "read_q20_rate", "read_q30_bases", "read_q30_rate",
   "read_q30_message", "read_total_bases", "read_total_reads",
   "adapter_detection_message",
   "genome_file", "genome_file_path", "genome_size_expected"]

/-- `str(final_results[h]) if final_results[h] is not None else ""` for one
header, mirroring the value row of `write_summary_file`.  (Numeric rendering
uses Lean's notation for the embedded rationals rather than CPython float
formatting.) -/
def fieldValue (r : SampleRecord) : String → String
  | "sample_id" => r.sample_id
  | "a_final_status" => statusStr r.a_final_status
  | "adapter_detection_status" => statusStr r.adapter_detection_status
  | "contamination_status" => statusStr r.contamination_status
  | "species_status" => statusStr r.species_status
  | "coverage_status" => statusStr r.coverage_status
  | "coverage_alt_status" => statusStr r.coverage_alt_status
  | "duplication_status" => statusStr r.duplication_status
  | "gc_content_status" => statusStr r.gc_content_status
  | "mlst_status" => statusStr r.mlst_status
  | "n_content_status" => statusStr r.n_content_status
  | "read_length_status" => statusStr r.read_length_status
  | "read_q30_status" => statusStr r.read_q30_status
  | "species" => r.species
  | "species_abundance" => r.species_abundance
  | "species_coverage" => r.species_coverage
  | "species_message" => r.species_message
  | "contamination_message" => r.contamination_message
  | "coverage_estimate" => s!"{r.coverage_estimate}"
  | "coverage_message" => r.coverage_message
  | "coverage_alt_estimate" => s!"{r.coverage_alt_estimate}"
  | "coverage_alt_message" => r.coverage_alt_message
  | "duplication_rate" => s!"{r.duplication_rate}"
  | "duplication_message" => r.duplication_message
  | "gc_content" => s!"{r.gc_content}"
  | "gc_content_lower" => s!"{r.gc_content_lower}"
  | "gc_content_upper" => s!"{r.gc_content_upper}"
  | "gc_content_message" => r.gc_content_message
  | "n_content_rate" => s!"{r.n_content_rate}"
  | "n_content_message" => r.n_content_message
  | "mlst_st" => r.mlst_st.getD ""
  | "mlst_message" => r.mlst_message
  | "read1_mean_length" => s!"{r.read1_mean_length}"
  | "read2_mean_length" => s!"{r.read2_mean_length}"
  | "read_length_message" => r.read_length_message
  | "read_q20_bases" => s!"{r.read_q20_bases}"
  | "read_q20_rate" => s!"{r.read_q20_rate}"
  | "read_q30_bases" => s!"{r.read_q30_bases}"
  | "read_q30_rate" => s!"{r.read_q30_rate}"
  | "read_q30_message" => r.read_q30_message
  | "read_total_bases" => s!"{r.read_total_bases}"
  | "read_total_reads" => s!"{r.read_total_reads}"
  | "adapter_detection_message" => r.adapter_detection_message
  | "genome_file" => r.genome_file
  | "genome_file_path" => r.genome_file_path
  | "genome_size_expected" => s!"{r.genome_size_expected}"
  | _ => ""

/-- The lines written by `write_summary_file` in `bactscout/thread.py`: one
header line and exactly one value line. -/
def write_summary_lines (r : SampleRecord) : List String :=
  [String.intercalate "," summaryHeaders,
   String.intercalate "," (summaryHeaders.map (fieldValue r))]

/-- Result of the modelled `run_one_sample` core: the finished record, the
lines of the per-sample summary file, and whether `handle_mlst_results` was
invoked. -/
structure SampleRunOutcome where
  record : SampleRecord
  summary_lines : List String
  mlst_invoked : Bool
deriving Repr

/-- The pure core of `run_one_sample` in `bactscout/thread.py`, from the
initialisation of `blank_sample_results` to `write_summary_file`.  External
effects are passed as data: `speciesAbundance` and `genomeFilePath` stand for
`extract_species_from_report(run_sylph(...))`, `fastpRaw` for the metrics
parsed by `get_fastp_results(run_fastp(...))`, `genomeLookup` for the
`get_expected_genome_size` table lookup, and `mlstRun top record` for the
record as updated by `handle_mlst_results` (whose output depends on the
external stringMLST run). -/
def run_one_sample_core (sampleId : String) (speciesAbundance : List SpeciesEntry)
    (genomeFilePath : String) (fastpRaw : FastpStats) (c : Config)
    (genomeLookup : String → ℚ × ℚ × ℚ)
    (mlstRun : String → SampleRecord → SampleRecord) : Option SampleRunOutcome := do
  let finalResults := blank_sample_results sampleId
  let finalResults := { finalResults with genome_file_path := genomeFilePath }
  let fastpStats := handle_fastp_results fastpRaw c
  let fastpStats := handle_duplication_results fastpStats c
  let fastpStats := handle_n_content_results fastpStats c
  let fastpStats := handle_adapter_detection fastpStats c
  let finalResults := updateWithFastp finalResults fastpStats
  let (finalResults, species) ← handle_species_coverage speciesAbundance finalResults c
  let finalResults ←
    if species = [] then pure finalResults
    else handle_genome_size species fastpStats finalResults c genomeLookup
  let contamSkipThreshold :=
    (c.contamination_fail_threshold.getD (c.contamination_threshold.getD 10))
  let has_multiple_species := species.length > 1
  let non_top_abundance := ((speciesAbundance.drop 1).map (fun s => s.2.1)).sum
  let finalResults :=
    if has_multiple_species ∧ non_top_abundance > contamSkipThreshold then
      { finalResults with
        species_status := FAILED
        species_message := s!"Multiple species detected with significant abundance ({non_top_abundance}%). Skipping MLST." }
    else finalResults
  let not_contaminated : Prop := ¬(has_multiple_species ∧ non_top_abundance > contamSkipThreshold)
  let (finalResults, mlstInvoked) :=
    if species = [] then
      -- `final_results.get("species_status", "FAILED")` re-reads the
      -- existing key; the message is replaced only when empty (falsy).
      (if finalResults.species_message = "" then
        { finalResults with species_message := "No species detected." }
       else finalResults, false)
    else
      -- `top_species = species[0]`, defined because `species` is non-empty.
      let top_species := species.headD ""
      if not_contaminated then
        let finalResults := { finalResults with species_status := PASSED }
        let finalResults :=
          if ¬has_multiple_species then
            { finalResults with species_message := "Single species detected." }
          else
            { finalResults with
              species_message := "Multiple species detected. Using the top species for MLST."
              species_status := WARNING }
        (mlstRun top_species finalResults, true)
      else
        ({ finalResults with species_status := FAILED }, false)
  let finalResults := { finalResults with a_final_status := final_status_pass finalResults }
  some ⟨finalResults, write_summary_lines finalResults, mlstInvoked⟩

/-! ## Read-pair discovery (`locate_read_file_pairs` in `bactscout/main.py`) -/

/-- The extension tuple of `filename.endswith((".fastq", ".fq", ".fastq.gz",
".fq.gz"))` in `locate_read_file_pairs`. -/
def fastqExtensions : List String := [".fastq", ".fq", ".fastq.gz", ".fq.gz"]

/-- `str.endswith` on strings, computed on the character lists. -/
def strEndsWith (s suffix : String) : Bool := suffix.toList.isSuffixOf s.toList

/-- Does a character list spell exactly one of the recognised FASTQ
extensions?  This is the anchored alternation
`(\.fastq(?:\.gz)?|\.fq(?:\.gz)?)$` of the discovery regex. -/
def extMatches (cs : List Char) : Bool := fastqExtensions.any (fun e => cs == e.toList)

/-- The tail of the discovery regex without the optional `_R`:
`[12](ext)$`. -/
def restMatchNoR : List Char → Option Char
  | d :: ext => if (d = '1' ∨ d = '2') ∧ extMatches ext then some d else none
  | [] => none

/-- The tail of the discovery regex after group 1: `(?:_R)?([12])(ext)$`,
with the greedy preference for consuming `_R` and the backtracking fallback. -/
def restMatch (rest : List Char) : Option Char :=
  match rest with
  | '_' :: 'R' :: d :: ext =>
      if (d = '1' ∨ d = '2') ∧ extMatches ext then some d else restMatchNoR rest
  | _ => restMatchNoR rest

/-- The lazy group `(.+?)` of the discovery regex
`(.+?)(?:_R)?([12])(\.fastq(?:\.gz)?|\.fq(?:\.gz)?)$`: the shortest non-empty
prefix whose remainder matches the rest of the pattern wins.  Returns the
matched group 1 together with group 2 (the digit). -/
def scanSplit : List Char → List Char → Option (List Char × Char)
  | _, [] => none
  | stemRev, c :: rest =>
      match restMatch rest with
      | some d => some ((c :: stemRev).reverse, d)
      | none => scanSplit (c :: stemRev) rest

/-- Classification of one filename by `locate_read_file_pairs`: the extension
pre-filter, the regex match, the removal of one trailing underscore from the
base name, and the R1/R2 side (`true` for R1, i.e. group 2 = "1"). -/
def classifyReadFile (filename : String) : Option (String × Bool) :=
  if fastqExtensions.any (fun e => strEndsWith filename e) then
    match scanSplit [] filename.toList with
    | some (stem, d) =>
        let baseName := String.mk stem
        let baseName := if strEndsWith baseName "_" then String.mk stem.dropLast else baseName
        some (baseName, d = '1')
    | none => none
  else none

/-- One entry of the `read_pairs` dictionary: optional R1 path, optional R2
path. -/
abbrev PairEntry := Option String × Option String

/-- `read_pairs[base_name][read_type] = path` with Python dict semantics:
update in place when the base name is already a key, append otherwise. -/
def updatePairs (m : List (String × PairEntry)) (base : String) (isR1 : Bool)
    (path : String) : List (String × PairEntry) :=
  if m.any (fun p => p.1 = base) then
    m.map (fun p =>
      if p.1 = base then
        (p.1, if isR1 then (some path, p.2.2) else (p.2.1, some path))
      else p)
  else
    m ++ [(base, if isR1 then (some path, none) else (none, some path))]

/-- The body of the `for filename in os.listdir(directory)` loop of
`locate_read_file_pairs`: ignore filenames that do not match, record the
classified side under `os.path.join(directory, filename)` otherwise. -/
def pairStep (directory : String) (m : List (String × PairEntry)) (filename : String) :
    List (String × PairEntry) :=
  match classifyReadFile filename with
  | some (base, isR1) => updatePairs m base isR1 (directory ++ "/" ++ filename)
  | none => m

/-- The `read_pairs` dictionary after the discovery loop. -/
def buildPairs (directory : String) (filenames : List String) : List (String × PairEntry) :=
  filenames.foldl (pairStep directory) []

/-- The per-entry emission step of the final `complete_pairs` comprehension of
`locate_read_file_pairs`: keep only dictionary entries with both sides
present. -/
def outFn (p : String × PairEntry) : Option (String × String × String) :=
  match p.2 with
  | (some r1, some r2) => some (p.1, r1, r2)
  | _ => none

/-- `locate_read_file_pairs(directory)` from `bactscout/main.py`, with the
`os.listdir` result passed in as `filenames`.  Returns the complete pairs
(base name, R1 path, R2 path) in dictionary (insertion) order. -/
def locate_read_file_pairs (directory : String) (filenames : List String) :
    List (String × String × String) :=
  (buildPairs directory filenames).filterMap outFn

/-! ## Summary merging (`summary_dir` in `bactscout/summary.py`) -/

/-- One CSV file: its name and its parsed rows. -/
structure CsvFile where
  name : String
  rows : List (List String)
deriving DecidableEq, Repr

/-- The data directory scanned by `summary_dir`: files at the top level and
one level of sample subdirectories. -/
structure DataDir where
  topFiles : List CsvFile
  subdirs : List (String × List CsvFile)
deriving Repr

/-- A path relative to the data directory, as components (one component for a
top-level file, two for a file inside a sample subdirectory). -/
abbrev RelPath := List String

/-- The summary files collected by `summary_dir`: `*_summary.csv` inside each
sample subdirectory, then `*_summary.csv` at the top level except
`final_summary.csv`. -/
def summaryInputs (d : DataDir) : List (RelPath × List (List String)) :=
  (d.subdirs.map (fun sd => sd.2.filterMap (fun f =>
      if strEndsWith f.name "_summary.csv" then some ([sd.1, f.name], f.rows) else none))).flatten
    ++ d.topFiles.filterMap (fun f =>
      if strEndsWith f.name "_summary.csv" ∧ f.name ≠ "final_summary.csv" then
        some ([f.name], f.rows)
      else none)

/-- Lexicographic comparison of character lists by code point, i.e. Python
string comparison. -/
def charListLe : List Char → List Char → Bool
  | [], _ => true
  | _ :: _, [] => false
  | a :: as, b :: bs =>
      if a.toNat < b.toNat then true
      else if b.toNat < a.toNat then false
      else charListLe as bs

/-- `sorted(summary_files)` compares the path strings; a relative path
compares by its slash-joined string. -/
def pathLe (a b : RelPath) : Bool :=
  charListLe (String.intercalate "/" a).toList (String.intercalate "/" b).toList

/-- The header/rows accumulation loop of `summary_dir`: empty files are
skipped, the first non-empty file's header row becomes the master header, and
every non-empty file contributes its data rows (all rows after the first). -/
def mergeCollect (files : List (RelPath × List (List String))) :
    Option (List String) × List (List String) :=
  files.foldl (fun acc f =>
    match f.2 with
    | [] => acc
    | headerRow :: dataRows =>
        ((match acc.1 with
          | none => some headerRow
          | some h => some h), acc.2 ++ dataRows)) (none, [])

/-- `summary_dir(data_dir, output_file)` from `bactscout/summary.py` as a pure
function: `none` when no summary files were found (the function returns early
and writes nothing), otherwise the rows of the merged CSV (header row, when
one was found, followed by all collected data rows). -/
def summary_dir (d : DataDir) : Option (List (List String)) :=
  let summary_files := (summaryInputs d).insertionSort (fun a b => pathLe a.1 b.1)
  if summary_files.isEmpty then none
  else
    let (header, all_rows) := mergeCollect summary_files
    some ((match header with | some h => [h] | none => []) ++ all_rows)

/-- Writing a file at the top level of the data directory (overwrite an
existing name in place, otherwise append). -/
def writeTopFile (d : DataDir) (name : String) (rows : List (List String)) : DataDir :=
  if d.topFiles.any (fun f => f.name = name) then
    { d with topFiles := d.topFiles.map (fun f => if f.name = name then ⟨name, rows⟩ else f) }
  else
    { d with topFiles := d.topFiles ++ [⟨name, rows⟩] }

/-- One run of the merge with the output written (as `main.py` does, the
merged file lands at the top level of the scanned directory). -/
def runMerge (d : DataDir) (outName : String) : DataDir :=
  match summary_dir d with
  | none => d
  | some rows => writeTopFile d outName rows

/-! ## Derived definitions used by the verification -/

/-- First-match lookup in the association-list model of the `read_pairs`
dictionary. -/
def lookupBase : List (String × PairEntry) → String → Option PairEntry
  | [], _ => none
  | q :: m, b => if q.1 = b then some q.2 else lookupBase m b

/-- Projection of one side (R1 for `true`, R2 for `false`) of a pair entry. -/
def sideOf (e : PairEntry) (s : Bool) : Option String := if s then e.1 else e.2

/-- The pair-side membership condition as the specification words it: the
filename ends with `_R1`/`_R2`, or with a trailing `_1`/`_2`, followed by one
of the recognised FASTQ extensions.  (Stated from the spec, for comparison
against the behaviour of `classifyReadFile`, which is taken from the code.) -/
def specPairSide (name : String) : Bool :=
  fastqExtensions.any (fun e =>
    strEndsWith name ("_R1" ++ e) || strEndsWith name ("_R2" ++ e) ||
    strEndsWith name ("_1" ++ e) || strEndsWith name ("_2" ++ e))

/-! ## Helper lemmas -/

set_option maxHeartbeats 2000000 in
/-- `handle_species_coverage` on a non-empty abundance list never fails once
both threshold pairs resolve, returns the descending-sorted species names, and
leaves the MLST fields of the record untouched. -/
lemma handle_species_coverage_cons (t : SpeciesEntry) (l : List SpeciesEntry)
    (r : SampleRecord) (c : Config) (cw cf qw qf : ℚ)
    (hcov : resolvedCoverageThresholds c = some (cw, cf))
    (hcon : resolvedContaminationThresholds c = some (qw, qf)) :
    ∃ r', handle_species_coverage (t :: l) r c =
        some (r', ((t :: l).insertionSort (fun a b => b.2.1 ≤ a.2.1)).map (fun s => s.1)) ∧
      r'.mlst_st = r.mlst_st ∧ r'.mlst_status = r.mlst_status ∧
      r'.mlst_message = r.mlst_message := by
  unfold handle_species_coverage
  rw [hcov, hcon]
  simp only [Option.bind_eq_bind, Option.some_bind]
  split_ifs <;> exact ⟨_, rfl, rfl, rfl, rfl⟩

set_option maxHeartbeats 2000000 in
/-- `handle_genome_size` on a non-empty species list never fails once the
coverage thresholds resolve, and leaves the MLST fields and the species
status of the record untouched. -/
lemma handle_genome_size_some (l : List String) (hl : l ≠ []) (f : FastpStats)
    (r : SampleRecord) (c : Config) (lookup : String → ℚ × ℚ × ℚ) (cw cf : ℚ)
    (hcov : resolvedCoverageThresholds c = some (cw, cf)) :
    ∃ r', handle_genome_size l f r c lookup = some r' ∧
      r'.mlst_st = r.mlst_st ∧ r'.mlst_status = r.mlst_status ∧
      r'.mlst_message = r.mlst_message ∧ r'.species_status = r.species_status := by
  cases l with
  | nil => exact absurd rfl hl
  | cons t ts =>
      unfold handle_genome_size
      rw [hcov]
      simp only [Option.bind_eq_bind, Option.some_bind]
      split_ifs <;> exact ⟨_, rfl, rfl, rfl, rfl, rfl⟩

/-- `restMatchNoR` succeeds exactly on a digit `1`/`2` followed by a
recognised extension. -/
lemma restMatchNoR_isSome_iff (b : List Char) :
    (restMatchNoR b).isSome = true ↔
      ∃ d ext, (d = '1' ∨ d = '2') ∧ extMatches ext = true ∧ b = d :: ext := by
  cases b with
  | nil => simp [restMatchNoR]
  | cons c cs =>
      simp only [restMatchNoR]
      split_ifs with h
      · simp only [Option.isSome_some, true_iff]
        exact ⟨c, cs, h.1, h.2, rfl⟩
      · simp only [Option.isSome_none, Bool.false_eq_true, false_iff]
        rintro ⟨d, ext, hd, hext, heq⟩
        injection heq with h1 h2
        subst h1; subst h2
        exact h ⟨hd, hext⟩

/-- `restMatch` succeeds exactly on `[12]ext` or `_R[12]ext`. -/
lemma restMatch_isSome_iff (b : List Char) :
    (restMatch b).isSome = true ↔
      ∃ d ext, (d = '1' ∨ d = '2') ∧ extMatches ext = true ∧
        (b = d :: ext ∨ b = '_' :: 'R' :: d :: ext) := by
  unfold restMatch
  split
  case _ d ext =>
    split_ifs with h
    · simp only [Option.isSome_some, true_iff]
      exact ⟨d, ext, h.1, h.2, Or.inr rfl⟩
    · rw [restMatchNoR_isSome_iff]
      constructor
      · rintro ⟨d', ext', hd', hext', heq⟩
        exact ⟨d', ext', hd', hext', Or.inl heq⟩
      · rintro ⟨d', ext', hd', hext', heq | heq⟩
        · exact ⟨d', ext', hd', hext', heq⟩
        · injection heq with h1 t
          injection t with h2 t2
          injection t2 with h3 h4
          subst h3; subst h4
          exact absurd ⟨hd', hext'⟩ h
  case _ hshape =>
    rw [restMatchNoR_isSome_iff]
    constructor
    · rintro ⟨d', ext', hd', hext', heq⟩
      exact ⟨d', ext', hd', hext', Or.inl heq⟩
    · rintro ⟨d', ext', hd', hext', heq | heq⟩
      · exact ⟨d', ext', hd', hext', heq⟩
      · exact absurd heq (hshape d' ext')

/-- The lazy scan succeeds exactly when the character list splits into a
non-empty prefix and a tail matched by `restMatch`. -/
lemma scanSplit_isSome_iff (acc : List Char) (cs : List Char) :
    (scanSplit acc cs).isSome = true ↔
      ∃ a b, a ≠ [] ∧ cs = a ++ b ∧ (restMatch b).isSome = true := by
  induction cs generalizing acc with
  | nil =>
      simp only [scanSplit, Option.isSome_none, Bool.false_eq_true, false_iff]
      rintro ⟨a, b, ha, hab, _⟩
      exact ha (List.append_eq_nil.mp hab.symm).1
  | cons c rest ih =>
      simp only [scanSplit]
      cases h : restMatch rest with
      | some d =>
          simp only [Option.isSome_some, true_iff]
          exact ⟨[c], rest, by simp, rfl, by simp [h]⟩
      | none =>
          rw [ih]
          constructor
          · rintro ⟨a, b, ha, hab, hsome⟩
            exact ⟨c :: a, b, by simp, by simp [hab], hsome⟩
          · rintro ⟨a, b, ha, hab, hsome⟩
            cases a with
            | nil => exact absurd rfl ha
            | cons a0 as =>
                injection hab with h1 h2
                subst h1
                cases as with
                | nil =>
                    have h2' : rest = b := by simpa using h2
                    subst h2'
                    rw [h] at hsome
                    simp at hsome
                | cons a1 as' =>
                    exact ⟨a1 :: as', b, by simp, h2, hsome⟩

/-- A digit followed by a recognised extension is matched by `restMatch`. -/
lemma restMatch_digit (d : Char) (ext : List Char) (hd : d = '1' ∨ d = '2')
    (hext : extMatches ext = true) : (restMatch (d :: ext)).isSome = true := by
  rcases hd with rfl | rfl <;> simp [restMatch, restMatchNoR, hext]

/-- Characterisation of the discovery regex: a filename is classified as a
pair side exactly when it decomposes as a non-empty stem, a digit `1`/`2`
(optionally preceded by `_R`, a case subsumed by a longer stem), and a
recognised FASTQ extension. -/
lemma classifyReadFile_isSome_iff (name : String) :
    (classifyReadFile name).isSome = true ↔
      ∃ stem d ext, stem ≠ [] ∧ (d = '1' ∨ d = '2') ∧ extMatches ext = true ∧
        name.toList = stem ++ d :: ext := by
  unfold classifyReadFile
  split_ifs with hpre
  · cases hs : scanSplit [] name.toList with
    | some p =>
        simp only [Option.isSome_some, true_iff]
        have : (scanSplit [] name.toList).isSome = true := by rw [hs]; rfl
        obtain ⟨a, b, ha, hab, hrm⟩ := (scanSplit_isSome_iff [] name.toList).mp this
        obtain ⟨d, ext, hd, hext, hb | hb⟩ := (restMatch_isSome_iff b).mp hrm
        · exact ⟨a, d, ext, ha, hd, hext, by rw [hab, hb]⟩
        · refine ⟨a ++ ['_', 'R'], d, ext, by simp, hd, hext, ?_⟩
          rw [hab, hb]
          simp
    | none =>
        simp only [Option.isSome_none, Bool.false_eq_true, false_iff]
        rintro ⟨stem, d, ext, hstem, hd, hext, hdecomp⟩
        have : (scanSplit [] name.toList).isSome = true :=
          (scanSplit_isSome_iff [] name.toList).mpr
            ⟨stem, d :: ext, hstem, hdecomp, restMatch_digit d ext hd hext⟩
        rw [hs] at this
        simp at this
  · simp only [Option.isSome_none, Bool.false_eq_true, false_iff]
    rintro ⟨stem, d, ext, hstem, hd, hext, hdecomp⟩
    apply hpre
    rw [List.any_eq_true]
    obtain ⟨e, he, hee⟩ := List.any_eq_true.mp hext
    refine ⟨e, he, ?_⟩
    unfold strEndsWith
    have hext_eq : ext = e.toList := by simpa using hee
    rw [List.isSuffixOf_iff_suffix]
    rw [hdecomp, hext_eq]
    exact ⟨stem ++ [d], by simp⟩

lemma lookupBase_eq_none (m : List (String × PairEntry)) (b : String)
    (h : m.any (fun q => q.1 = b) = false) : lookupBase m b = none := by
  induction m with
  | nil => rfl
  | cons q m ih =>
      simp only [List.any_cons, Bool.or_eq_false_iff] at h
      simp only [lookupBase, if_neg (by simpa using h.1)]
      exact ih h.2

lemma lookupBase_isSome_of_any (m : List (String × PairEntry)) (b : String)
    (h : m.any (fun q => q.1 = b) = true) : (lookupBase m b).isSome = true := by
  induction m with
  | nil => simp at h
  | cons q m ih =>
      simp only [lookupBase]
      by_cases hq : q.1 = b
      · rw [if_pos hq]; rfl
      · rw [if_neg hq]
        simp only [List.any_cons] at h
        rcases Bool.or_eq_true_iff.mp h with h1 | h1
        · exact absurd (by simpa using h1) hq
        · exact ih h1

lemma lookupBase_map_update (m : List (String × PairEntry)) (base : String)
    (f : PairEntry → PairEntry) :
    lookupBase (m.map (fun q => if q.1 = base then (q.1, f q.2) else q)) base =
      (lookupBase m base).map f := by
  induction m with
  | nil => rfl
  | cons q m ih =>
      by_cases hq : q.1 = base
      · simp only [List.map_cons, if_pos hq, lookupBase]
        rfl
      · simp only [List.map_cons, if_neg hq, lookupBase, if_neg hq]
        exact ih

lemma lookupBase_map_update_other (m : List (String × PairEntry)) (base b : String)
    (f : PairEntry → PairEntry) (hb : b ≠ base) :
    lookupBase (m.map (fun q => if q.1 = base then (q.1, f q.2) else q)) b =
      lookupBase m b := by
  induction m with
  | nil => rfl
  | cons q m ih =>
      by_cases hq : q.1 = base
      · have hqb : ¬q.1 = b := by rw [hq]; exact fun hh => hb hh.symm
        simp only [List.map_cons, if_pos hq, lookupBase, if_neg hqb]
        exact ih
      · by_cases hqb : q.1 = b
        · simp only [List.map_cons, if_neg hq, lookupBase, if_pos hqb]
        · simp only [List.map_cons, if_neg hq, lookupBase, if_neg hqb]
          exact ih

lemma lookupBase_append_of_none (m l : List (String × PairEntry)) (b : String)
    (h : lookupBase m b = none) : lookupBase (m ++ l) b = lookupBase l b := by
  induction m with
  | nil => rfl
  | cons q m ih =>
      simp only [lookupBase, List.cons_append] at h ⊢
      by_cases hq : q.1 = b
      · rw [if_pos hq] at h; exact absurd h (by simp)
      · rw [if_neg hq] at h ⊢
        exact ih h

lemma lookupBase_append_of_some (m l : List (String × PairEntry)) (b : String)
    (e : PairEntry) (h : lookupBase m b = some e) : lookupBase (m ++ l) b = some e := by
  induction m with
  | nil => exact absurd h (by simp [lookupBase])
  | cons q m ih =>
      simp only [lookupBase, List.cons_append] at h ⊢
      by_cases hq : q.1 = b
      · rw [if_pos hq] at h ⊢; exact h
      · rw [if_neg hq] at h ⊢
        exact ih h

lemma lookupBase_updatePairs_self (m : List (String × PairEntry)) (base : String)
    (s : Bool) (p : String) :
    lookupBase (updatePairs m base s p) base =
      some (if s then (some p, ((lookupBase m base).getD (none, none)).2)
            else (((lookupBase m base).getD (none, none)).1, some p)) := by
  unfold updatePairs
  by_cases hany : m.any (fun q => q.1 = base) = true
  · rw [if_pos hany]
    have hm := lookupBase_map_update m base
      (fun e => if s then (some p, e.2) else (e.1, some p))
    cases hl : lookupBase m base with
    | none =>
        have := lookupBase_isSome_of_any m base hany
        rw [hl] at this
        exact absurd this (by simp)
    | some e =>
        rw [hl] at hm
        rw [hm]
        cases s <;> rfl
  · rw [if_neg hany]
    have hnone : lookupBase m base = none :=
      lookupBase_eq_none m base (Bool.eq_false_iff.mpr hany)
    rw [lookupBase_append_of_none m _ base hnone, hnone]
    cases s <;> simp [lookupBase]

lemma lookupBase_updatePairs_other (m : List (String × PairEntry)) (base b : String)
    (s : Bool) (p : String) (hb : b ≠ base) :
    lookupBase (updatePairs m base s p) b = lookupBase m b := by
  unfold updatePairs
  by_cases hany : m.any (fun q => q.1 = base) = true
  · rw [if_pos hany]
    exact lookupBase_map_update_other m base b
      (fun e => if s then (some p, e.2) else (e.1, some p)) hb
  · rw [if_neg hany]
    cases hmb : lookupBase m b with
    | none =>
        rw [lookupBase_append_of_none m _ b hmb]
        simp only [lookupBase]
        rw [if_neg (fun hh => hb hh.symm)]
    | some e => exact lookupBase_append_of_some m _ b e hmb

lemma side_pairStep (directory : String) (m : List (String × PairEntry)) (f : String)
    (b : String) (s : Bool) :
    (∃ e, lookupBase (pairStep directory m f) b = some e ∧ (sideOf e s).isSome = true) ↔
      ((∃ e, lookupBase m b = some e ∧ (sideOf e s).isSome = true) ∨
        classifyReadFile f = some (b, s)) := by
  unfold pairStep
  cases hc : classifyReadFile f with
  | none => simp
  | some bp =>
      obtain ⟨base, side⟩ := bp
      by_cases hb : b = base
      · subst hb
        rw [lookupBase_updatePairs_self]
        by_cases hs : s = side
        · subst hs
          constructor
          · intro _
            exact Or.inr rfl
          · intro _
            refine ⟨_, rfl, ?_⟩
            cases s <;> simp [sideOf]
        · constructor
          · rintro ⟨e, he, hside⟩
            injection he with he'
            subst he'
            left
            cases hl : lookupBase m b with
            | none =>
                rw [hl] at hside
                cases s <;> cases side <;>
                  first
                    | exact absurd rfl hs
                    | simp [sideOf] at hside
            | some e' =>
                rw [hl] at hside
                refine ⟨e', rfl, ?_⟩
                cases s <;> cases side <;>
                  first
                    | exact absurd rfl hs
                    | simpa [sideOf] using hside
          · rintro (⟨e, he, hside⟩ | h)
            · refine ⟨_, rfl, ?_⟩
              rw [he]
              cases s <;> cases side <;>
                first
                  | exact absurd rfl hs
                  | simpa [sideOf] using hside
            · injection h with h'
              injection h' with h1 h2
              exact absurd h2.symm hs
      · rw [lookupBase_updatePairs_other _ _ _ _ _ hb]
        constructor
        · exact Or.inl
        · rintro (h | h)
          · exact h
          · injection h with h'
            injection h' with h1 h2
            exact absurd h1.symm hb

lemma side_buildPairs_aux (directory : String) (files : List String) (b : String) (s : Bool) :
    ∀ m, (∃ e, lookupBase (files.foldl (pairStep directory) m) b = some e ∧
        (sideOf e s).isSome = true) ↔
      ((∃ e, lookupBase m b = some e ∧ (sideOf e s).isSome = true) ∨
        ∃ f ∈ files, classifyReadFile f = some (b, s)) := by
  induction files with
  | nil => intro m; simp
  | cons f fs ih =>
      intro m
      rw [List.foldl_cons, ih (pairStep directory m f), side_pairStep]
      simp only [List.mem_cons]
      constructor
      · rintro ((h | h) | ⟨g, hg, hcg⟩)
        · exact Or.inl h
        · exact Or.inr ⟨f, Or.inl rfl, h⟩
        · exact Or.inr ⟨g, Or.inr hg, hcg⟩
      · rintro (h | ⟨g, (rfl | hg), hcg⟩)
        · exact Or.inl (Or.inl h)
        · exact Or.inl (Or.inr hcg)
        · exact Or.inr ⟨g, hg, hcg⟩

lemma side_buildPairs (directory : String) (files : List String) (b : String) (s : Bool) :
    (∃ e, lookupBase (buildPairs directory files) b = some e ∧
        (sideOf e s).isSome = true) ↔
      ∃ f ∈ files, classifyReadFile f = some (b, s) := by
  rw [buildPairs, side_buildPairs_aux]
  simp [lookupBase]

lemma path_pairStep (directory : String) (m : List (String × PairEntry)) (f : String)
    (b : String) (s : Bool) (e : PairEntry) (p : String)
    (hl : lookupBase (pairStep directory m f) b = some e) (hp : sideOf e s = some p) :
    (∃ e', lookupBase m b = some e' ∧ sideOf e' s = some p) ∨
      (classifyReadFile f = some (b, s) ∧ p = directory ++ "/" ++ f) := by
  unfold pairStep at hl
  cases hc : classifyReadFile f with
  | none =>
      rw [hc] at hl
      exact Or.inl ⟨e, hl, hp⟩
  | some bp =>
      obtain ⟨base, side⟩ := bp
      rw [hc] at hl
      by_cases hb : b = base
      · subst hb
        rw [lookupBase_updatePairs_self] at hl
        injection hl with hl'
        subst hl'
        by_cases hs : s = side
        · subst hs
          right
          refine ⟨rfl, ?_⟩
          cases s <;> simpa [sideOf] using hp.symm
        · left
          cases hlm : lookupBase m b with
          | none =>
              rw [hlm] at hp
              cases s <;> cases side <;>
                first
                  | exact absurd rfl hs
                  | simp [sideOf] at hp
          | some e' =>
              rw [hlm] at hp
              refine ⟨e', rfl, ?_⟩
              cases s <;> cases side <;>
                first
                  | exact absurd rfl hs
                  | simpa [sideOf] using hp
      · rw [lookupBase_updatePairs_other _ _ _ _ _ hb] at hl
        exact Or.inl ⟨e, hl, hp⟩

lemma path_buildPairs_aux (directory : String) (files : List String) (b : String) (s : Bool) :
    ∀ m (e : PairEntry) (p : String),
      lookupBase (files.foldl (pairStep directory) m) b = some e → sideOf e s = some p →
      (∃ e', lookupBase m b = some e' ∧ sideOf e' s = some p) ∨
        ∃ f ∈ files, classifyReadFile f = some (b, s) ∧ p = directory ++ "/" ++ f := by
  induction files with
  | nil =>
      intro m e p hl hp
      exact Or.inl ⟨e, hl, hp⟩
  | cons f fs ih =>
      intro m e p hl hp
      rw [List.foldl_cons] at hl
      rcases ih (pairStep directory m f) e p hl hp with h | ⟨g, hg, hcg, hpg⟩
      · obtain ⟨e', hl', hp'⟩ := h
        rcases path_pairStep directory m f b s e' p hl' hp' with h2 | ⟨hcf, hpf⟩
        · exact Or.inl h2
        · exact Or.inr ⟨f, List.mem_cons_self f fs, hcf, hpf⟩
      · exact Or.inr ⟨g, List.mem_cons_of_mem f hg, hcg, hpg⟩

lemma keys_map_update (m : List (String × PairEntry)) (base : String)
    (f : PairEntry → PairEntry) :
    (m.map (fun q => if q.1 = base then (q.1, f q.2) else q)).map Prod.fst =
      m.map Prod.fst := by
  induction m with
  | nil => rfl
  | cons q m ih =>
      by_cases hq : q.1 = base <;>
        simp only [List.map_cons, if_pos, if_neg, hq, ih, reduceIte]

lemma keys_nodup_updatePairs (m : List (String × PairEntry)) (base : String)
    (s : Bool) (p : String) (h : (m.map Prod.fst).Nodup) :
    ((updatePairs m base s p).map Prod.fst).Nodup := by
  unfold updatePairs
  by_cases hany : m.any (fun q => q.1 = base) = true
  · rw [if_pos hany,
      keys_map_update m base (fun e => if s then (some p, e.2) else (e.1, some p))]
    exact h
  · rw [if_neg hany]
    rw [List.map_append, List.nodup_append]
    refine ⟨h, by simp, ?_⟩
    intro a ha hb
    simp only [List.map_cons, List.map_nil, List.mem_singleton] at hb
    subst hb
    obtain ⟨q, hq, hq1⟩ := List.mem_map.mp ha
    exact absurd (List.any_eq_true.mpr ⟨q, hq, by simp [hq1]⟩) hany

lemma keys_nodup_buildPairs (directory : String) (files : List String) :
    ((buildPairs directory files).map Prod.fst).Nodup := by
  have aux : ∀ m, (List.map Prod.fst m).Nodup →
      ((files.foldl (pairStep directory) m).map Prod.fst).Nodup := by
    induction files with
    | nil => exact fun m h => h
    | cons f fs ih =>
        intro m h
        rw [List.foldl_cons]
        refine ih (pairStep directory m f) ?_
        unfold pairStep
        cases hc : classifyReadFile f with
        | none => exact h
        | some bp => exact keys_nodup_updatePairs m bp.1 bp.2 _ h
  exact aux [] (by simp)

lemma mem_of_lookupBase (m : List (String × PairEntry)) (b : String) (e : PairEntry)
    (h : lookupBase m b = some e) : (b, e) ∈ m := by
  induction m with
  | nil => exact absurd h (by simp [lookupBase])
  | cons q m ih =>
      simp only [lookupBase] at h
      by_cases hq : q.1 = b
      · rw [if_pos hq] at h
        injection h with h'
        have hqe : q = (b, e) := by
          obtain ⟨q1, q2⟩ := q
          simp_all
        exact List.mem_cons.mpr (Or.inl hqe.symm)
      · rw [if_neg hq] at h
        exact List.mem_cons_of_mem q (ih h)

lemma lookupBase_of_mem (m : List (String × PairEntry)) (b : String) (e : PairEntry)
    (hnd : (m.map Prod.fst).Nodup) (hm : (b, e) ∈ m) : lookupBase m b = some e := by
  induction m with
  | nil => exact absurd hm (by simp)
  | cons q m ih =>
      simp only [List.map_cons, List.nodup_cons] at hnd
      rcases List.mem_cons.mp hm with h | h
      · subst h
        simp [lookupBase]
      · have hq : ¬q.1 = b := by
          intro hqb
          exact hnd.1 (by
            rw [hqb]
            exact List.mem_map.mpr ⟨(b, e), h, rfl⟩)
        simp only [lookupBase, if_neg hq]
        exact ih hnd.2 h

lemma outFn_eq_some (p : String × PairEntry) (b r1 r2 : String) :
    outFn p = some (b, r1, r2) ↔ p = (b, (some r1, some r2)) := by
  obtain ⟨b', e1, e2⟩ := p
  cases e1 <;> cases e2 <;> simp [outFn]

lemma locate_keys_sublist (m : List (String × PairEntry)) :
    ((m.filterMap outFn).map Prod.fst).Sublist (m.map Prod.fst) := by
  induction m with
  | nil => simp
  | cons q m ih =>
      obtain ⟨b, e1, e2⟩ := q
      cases e1 <;> cases e2 <;>
        simp only [List.filterMap_cons, outFn, List.map_cons] <;>
        first
          | exact ih.cons b
          | exact ih.cons₂ b

/-- The merged output file, when named `final_summary.csv` and placed at the
top level of the data directory, is never collected as a merge input. -/
lemma final_summary_not_input (d : DataDir) :
    ["final_summary.csv"] ∉ (summaryInputs d).map Prod.fst := by
  intro hmem
  obtain ⟨p, hp, hpf⟩ := List.mem_map.mp hmem
  rcases List.mem_append.mp hp with h | h
  · obtain ⟨l, hl, hpl⟩ := List.mem_flatten.mp h
    obtain ⟨sd, _, rfl⟩ := List.mem_map.mp hl
    obtain ⟨f2, _, hsome⟩ := List.mem_filterMap.mp hpl
    split_ifs at hsome with hcond
    injection hsome with hsome'
    rw [← hsome'] at hpf
    simp at hpf
  · obtain ⟨f2, _, hsome⟩ := List.mem_filterMap.mp h
    split_ifs at hsome with hcond
    injection hsome with hsome'
    rw [← hsome'] at hpf
    simp only [List.cons.injEq, and_true] at hpf
    exact hcond.2 hpf

/-- Overwriting (in place) the top-level `final_summary.csv` leaves the
collected top-level merge inputs unchanged. -/
lemma topFilter_map_final (l : List CsvFile) (rows : List (List String)) :
    (l.map (fun f => if f.name = "final_summary.csv" then
        (⟨"final_summary.csv", rows⟩ : CsvFile) else f)).filterMap
      (fun f => if strEndsWith f.name "_summary.csv" ∧ f.name ≠ "final_summary.csv" then
        some ([f.name], f.rows) else none)
    = l.filterMap
      (fun f => if strEndsWith f.name "_summary.csv" ∧ f.name ≠ "final_summary.csv" then
        some ([f.name], f.rows) else none) := by
  induction l with
  | nil => rfl
  | cons f l ih =>
      by_cases hf : f.name = "final_summary.csv"
      · simp only [List.map_cons, if_pos hf, List.filterMap_cons]
        rw [if_neg (by simp), if_neg (by rw [hf]; simp)]
        exact ih
      · simp only [List.map_cons, if_neg hf, List.filterMap_cons]
        by_cases hcond : strEndsWith f.name "_summary.csv" = true ∧ f.name ≠ "final_summary.csv"
        · simp only [if_pos hcond, ih]
        · simp only [if_neg hcond, ih]

/-- Writing the merged output as top-level `final_summary.csv` leaves the set
of collected merge inputs unchanged. -/
lemma summaryInputs_writeTop_final (d : DataDir) (rows : List (List String)) :
    summaryInputs (writeTopFile d "final_summary.csv" rows) = summaryInputs d := by
  unfold summaryInputs writeTopFile
  by_cases hany : d.topFiles.any (fun f => f.name = "final_summary.csv") = true
  · rw [if_pos hany]
    exact congrArg _ (topFilter_map_final d.topFiles rows)
  · rw [if_neg hany]
    have happ : (d.topFiles ++ [(⟨"final_summary.csv", rows⟩ : CsvFile)]).filterMap
        (fun f => if strEndsWith f.name "_summary.csv" ∧ f.name ≠ "final_summary.csv" then
          some (([f.name] : RelPath), f.rows) else none)
        = d.topFiles.filterMap
        (fun f => if strEndsWith f.name "_summary.csv" ∧ f.name ≠ "final_summary.csv" then
          some (([f.name] : RelPath), f.rows) else none) := by
      rw [List.filterMap_append]
      simp
    exact congrArg (fun x =>
      (d.subdirs.map (fun sd => sd.2.filterMap (fun f =>
        if strEndsWith f.name "_summary.csv" then
          some (([sd.1, f.name] : RelPath), f.rows) else none))).flatten ++ x) happ

/-! ## Claim theorems -/

set_option maxHeartbeats 1000000 in
/-- Claim C1.  Final-verdict coverage redundancy: for every result record in
which no critical metric (read length, read quality/Q30, contamination, GC
content, and — when total reads > 0 — duplication and N-content) is FAILED,
the final verdict of `final_status_pass` is FAILED if and only if both
coverage statuses (tool-reported estimate and computed alternative estimate)
are FAILED; if exactly one of the two is FAILED the verdict is WARNING; and
the verdict is unchanged when the two coverage statuses are swapped. -/
theorem final_verdict_coverage_redundancy (r : SampleRecord)
    (h1 : r.read_length_status ≠ FAILED) (h2 : r.read_q30_status ≠ FAILED)
    (h3 : r.contamination_status ≠ FAILED) (h4 : r.gc_content_status ≠ FAILED)
    (h5 : 0 < r.read_total_reads →
      r.duplication_status ≠ FAILED ∧ r.n_content_status ≠ FAILED) :
    (final_status_pass r = FAILED ↔
      r.coverage_status = FAILED ∧ r.coverage_alt_status = FAILED)
    ∧ (((r.coverage_status = FAILED ∧ r.coverage_alt_status ≠ FAILED) ∨
        (r.coverage_status ≠ FAILED ∧ r.coverage_alt_status = FAILED)) →
        final_status_pass r = WARNING)
    ∧ final_status_pass
        { r with coverage_status := r.coverage_alt_status,
                 coverage_alt_status := r.coverage_status } = final_status_pass r := by
  have hc : ((criticalStatuses r).contains FAILED) = false := by
    by_cases hr : 0 < r.read_total_reads
    · obtain ⟨h5a, h5b⟩ := h5 hr
      simp [criticalStatuses, hr]
      exact ⟨fun h => h1 h.symm, fun h => h2 h.symm, fun h => h3 h.symm, fun h => h4 h.symm,
        fun h => h5a h.symm, fun h => h5b h.symm⟩
    · simp [criticalStatuses, hr]
      exact ⟨fun h => h1 h.symm, fun h => h2 h.symm, fun h => h3 h.symm, fun h => h4 h.symm⟩
  have hc2 : ((criticalStatuses
      { r with coverage_status := r.coverage_alt_status,
               coverage_alt_status := r.coverage_status }).contains FAILED) = false := hc
  cases hcov : r.coverage_status <;> cases halt : r.coverage_alt_status <;>
    cases hsp : r.species_status <;>
      simp_all [final_status_pass, criticalStatuses]

/-- Witness for C1: a concrete record with all critical metrics passing and
only the tool-reported coverage estimate FAILED; the theorem applies and the
verdict is WARNING. -/
theorem final_verdict_coverage_redundancy_witness :
    (({ blank_sample_results "sample" with
        read_length_status := PASSED, read_q30_status := PASSED,
        contamination_status := PASSED, gc_content_status := PASSED,
        coverage_status := FAILED, coverage_alt_status := PASSED } :
          SampleRecord).read_length_status ≠ FAILED) ∧
    final_status_pass { blank_sample_results "sample" with
        read_length_status := PASSED, read_q30_status := PASSED,
        contamination_status := PASSED, gc_content_status := PASSED,
        coverage_status := FAILED, coverage_alt_status := PASSED } = WARNING :=
  ⟨by decide,
   (final_verdict_coverage_redundancy
     { blank_sample_results "sample" with
        read_length_status := PASSED, read_q30_status := PASSED,
        contamination_status := PASSED, gc_content_status := PASSED,
        coverage_status := FAILED, coverage_alt_status := PASSED }
     (by decide) (by decide) (by decide) (by decide) (by decide)).2.1
     (Or.inl ⟨by decide, by decide⟩)⟩

/-- Claim C2.  Sequence-typing status never influences the verdict: for every
result record, changing the `mlst_status` field (in particular between PASSED
and WARNING, all other fields held fixed) leaves the output of
`final_status_pass` unchanged. -/
theorem mlst_status_informational (r : SampleRecord) (s : Status) :
    final_status_pass { r with mlst_status := s } = final_status_pass r := rfl

/-- Claim C10 (implicit).  The adapter-detection status never influences the
verdict: changing `adapter_detection_status` to any status (all other fields
held fixed) leaves `final_status_pass` unchanged — even though
`handle_adapter_detection` can assign FAILED for a sample with reads (more
overrepresented sequences than the threshold). -/
theorem adapter_status_informational :
    (∀ (r : SampleRecord) (s : Status),
      final_status_pass { r with adapter_detection_status := s } = final_status_pass r)
    ∧ (handle_adapter_detection
        { read_total_reads := 1000,
          overrepresented_sequences := ["a", "b", "c", "d", "e", "f"] }
        {}).adapter_detection_status = FAILED
    ∧ (1000 : ℕ) > 0 :=
  ⟨fun _ _ => rfl, by decide, by decide⟩

/-- Counterexample to claim C3 as stated.  With warn threshold 5 and fail
threshold 10 (warn < fail) and a single species at 92% abundance, the
contamination 100 − 92 = 8 lies strictly between the warn and fail
thresholds, so the claimed three-tier policy demands WARNING; the code
returns PASSED (its PASSED branch compares against the fail threshold, and
its WARNING branch is unreachable). -/
theorem contamination_claim_counterexample :
    (handle_species_coverage [("A", 92, 50)] (blank_sample_results "sample")
        { contamination_warn_threshold := some 5, contamination_fail_threshold := some 10,
          coverage_warn_threshold := some 20, coverage_fail_threshold := some 30 }).map
      (fun p => p.1.contamination_status) = some PASSED ∧
    (5 : ℚ) < 100 - 92 ∧ (100 - 92 : ℚ) ≤ 10 ∧ (5 : ℚ) < 10 ∧
    (some PASSED ≠ some WARNING) := by
  refine ⟨?_, by norm_num, by norm_num, by norm_num, by decide⟩
  norm_num [handle_species_coverage, resolvedCoverageThresholds,
    resolvedContaminationThresholds, Option.bind, List.insertionSort, List.orderedInsert]

set_option maxHeartbeats 1000000 in
set_option linter.unusedTactic false in
/-- Claim C3 (amended).  Contamination evaluation with contamination defined
as 100 minus the first (top) species abundance: for every non-empty
species-abundance list with warn threshold w and fail threshold f (w < f),
the contamination status is PASSED when the contamination is strictly below
the fail threshold f and FAILED otherwise; the WARNING tier is unreachable
(the code's PASSED branch tests the fail threshold, not the warn
threshold). -/
theorem contamination_pass_fail_policy (t : SpeciesEntry) (l : List SpeciesEntry)
    (r : SampleRecord) (c : Config) (w f cw cf : ℚ)
    (hw : c.contamination_warn_threshold = some w)
    (hf : c.contamination_fail_threshold = some f)
    (hcov : resolvedCoverageThresholds c = some (cw, cf))
    (hwf : w < f) :
    ∃ r' sp, handle_species_coverage (t :: l) r c = some (r', sp) ∧
      r'.contamination_status = (if 100 - t.2.1 < f then PASSED else FAILED) ∧
      r'.contamination_status ≠ WARNING := by
  have hcon : resolvedContaminationThresholds c = some (w, f) := by
    unfold resolvedContaminationThresholds
    rw [hf, hw]
  unfold handle_species_coverage
  rw [hcov, hcon]
  simp only [Option.bind_eq_bind, Option.some_bind]
  refine ⟨_, _, rfl, ?_, ?_⟩ <;>
    split_ifs <;> first | rfl | linarith | (exfalso; linarith) | (simp; done)

/-- Witness for C3 (amended): species at 92% abundance with warn 5 and
fail 10 — contamination 8 < 10 gives PASSED and never WARNING. -/
theorem contamination_pass_fail_policy_witness :
    (5 : ℚ) < 10 ∧
    ∃ r' sp, handle_species_coverage [("A", 92, 50)] (blank_sample_results "sample2")
        { contamination_warn_threshold := some 5, contamination_fail_threshold := some 10,
          coverage_warn_threshold := some 20, coverage_fail_threshold := some 30 }
        = some (r', sp) ∧
      r'.contamination_status = (if (100 - 92 : ℚ) < 10 then PASSED else FAILED) ∧
      r'.contamination_status ≠ WARNING :=
  ⟨by norm_num,
   contamination_pass_fail_policy ("A", 92, 50) [] (blank_sample_results "sample2")
     { contamination_warn_threshold := some 5, contamination_fail_threshold := some 10,
       coverage_warn_threshold := some 20, coverage_fail_threshold := some 30 }
     5 10 20 30 rfl rfl rfl (by norm_num)⟩

/-- Counterexample to claim C4 as stated.  A zero-read sample with no species
detected finishes with `mlst_status = WARNING`, not FAILED — so not every
per-metric status field of the finished record is FAILED. -/
theorem zero_reads_claim_counterexample :
    (run_one_sample_core "sampleB" [] "" {} {} (fun _ => (0, 0, 0)) (fun _ r => r)).map
        (fun o => o.record.mlst_status) = some WARNING ∧
    (WARNING ≠ FAILED) := ⟨rfl, by decide⟩

set_option maxHeartbeats 2000000 in
/-- Claim C4 (amended).  Zero-reads worst case: for every sample processed
with `read_total_reads = 0` and no species detected, every per-metric status
field of the finished record is FAILED except the sequence-typing status,
which stays at its blank-record value WARNING; the final verdict is FAILED,
and the summary file still consists of a header line plus exactly one data
row. -/
theorem zero_reads_worst_case (sampleId genomeFilePath : String)
    (fastpRaw : FastpStats) (c : Config) (lookup : String → ℚ × ℚ × ℚ)
    (mlstRun : String → SampleRecord → SampleRecord)
    (h0 : fastpRaw.read_total_reads = 0) :
    ∃ o, run_one_sample_core sampleId [] genomeFilePath fastpRaw c lookup mlstRun = some o ∧
      o.record.read_q30_status = FAILED ∧ o.record.read_length_status = FAILED ∧
      o.record.duplication_status = FAILED ∧ o.record.n_content_status = FAILED ∧
      o.record.adapter_detection_status = FAILED ∧ o.record.species_status = FAILED ∧
      o.record.coverage_status = FAILED ∧ o.record.coverage_alt_status = FAILED ∧
      o.record.contamination_status = FAILED ∧ o.record.gc_content_status = FAILED ∧
      o.record.mlst_status = WARNING ∧
      o.record.a_final_status = FAILED ∧
      o.summary_lines.length = 2 := by
  unfold run_one_sample_core
  simp only [handle_species_coverage, Option.bind_eq_bind, Option.some_bind]
  refine ⟨_, rfl, ?_⟩
  simp only [updateWithFastp, handle_adapter_detection, handle_n_content_results,
    handle_duplication_results, handle_fastp_results, blank_sample_results, h0, reduceIte,
    write_summary_lines, List.length_cons, List.length_nil]
  split_ifs <;>
    simp only [final_status_pass, criticalStatuses, h0, reduceIte, List.contains_cons,
      List.cons_append, List.nil_append, beq_self_eq_true, Bool.or_true, Bool.true_or,
      List.contains_nil, and_self, ne_eq] <;>
    norm_num

/-- Witness for C4 (amended): the all-defaults fastp record has zero reads
and the zero-read run produces the all-FAILED record. -/
theorem zero_reads_worst_case_witness :
    ({} : FastpStats).read_total_reads = 0 ∧
    ∃ o, run_one_sample_core "sampleB2" [] "" {} {} (fun _ => (0, 0, 0)) (fun _ r => r)
        = some o ∧
      o.record.read_q30_status = FAILED ∧ o.record.read_length_status = FAILED ∧
      o.record.duplication_status = FAILED ∧ o.record.n_content_status = FAILED ∧
      o.record.adapter_detection_status = FAILED ∧ o.record.species_status = FAILED ∧
      o.record.coverage_status = FAILED ∧ o.record.coverage_alt_status = FAILED ∧
      o.record.contamination_status = FAILED ∧ o.record.gc_content_status = FAILED ∧
      o.record.mlst_status = WARNING ∧
      o.record.a_final_status = FAILED ∧
      o.summary_lines.length = 2 :=
  ⟨rfl, zero_reads_worst_case "sampleB2" "" {} {} (fun _ => (0, 0, 0)) (fun _ r => r) rfl⟩

set_option maxHeartbeats 2000000 in
/-- Claim C5.  Contaminated samples skip typing: whenever more than one
species is detected and the summed abundance of the non-top species strictly
exceeds the contamination fail threshold, the species status is FAILED, the
sequence-typing step is not invoked (for every possible typing outcome
`mlstRun`), and the `mlst_st`/`mlst_status`/`mlst_message` fields keep their
pre-typing (blank-record) values. -/
theorem contaminated_sample_skips_typing (sampleId genomeFilePath : String)
    (top : SpeciesEntry) (rest : List SpeciesEntry)
    (fastpRaw : FastpStats) (c : Config) (lookup : String → ℚ × ℚ × ℚ)
    (mlstRun : String → SampleRecord → SampleRecord) (cw cf qw qf : ℚ)
    (hcov : resolvedCoverageThresholds c = some (cw, cf))
    (hcon : resolvedContaminationThresholds c = some (qw, qf))
    (hrest : rest ≠ [])
    (hsum : (rest.map (fun s => s.2.1)).sum >
        c.contamination_fail_threshold.getD (c.contamination_threshold.getD 10)) :
    ∃ o, run_one_sample_core sampleId (top :: rest) genomeFilePath fastpRaw c lookup mlstRun
        = some o ∧
      o.mlst_invoked = false ∧
      o.record.species_status = FAILED ∧
      o.record.mlst_st = (blank_sample_results sampleId).mlst_st ∧
      o.record.mlst_status = (blank_sample_results sampleId).mlst_status ∧
      o.record.mlst_message = (blank_sample_results sampleId).mlst_message := by
  unfold run_one_sample_core
  simp only [Option.bind_eq_bind, Option.some_bind]
  generalize hF :
    handle_adapter_detection (handle_n_content_results (handle_duplication_results
      (handle_fastp_results fastpRaw c) c) c) c = F
  generalize hR :
    updateWithFastp { blank_sample_results sampleId with genome_file_path := genomeFilePath } F
      = R
  obtain ⟨r2, hs, hm1, hm2, hm3⟩ :=
    handle_species_coverage_cons top rest R c cw cf qw qf hcov hcon
  rw [hs]
  simp only [Option.some_bind]
  have hlen : (((top :: rest).insertionSort (fun a b => b.2.1 ≤ a.2.1)).map
      (fun s => s.1)).length = rest.length + 1 := by
    simp only [List.length_map, List.length_insertionSort, List.length_cons]
  have hne : (((top :: rest).insertionSort (fun a b => b.2.1 ≤ a.2.1)).map
      (fun s => s.1)) ≠ [] := by
    intro h
    rw [h] at hlen
    simp at hlen
  rw [if_neg hne]
  obtain ⟨r3, hg, gm1, gm2, gm3, gm4⟩ :=
    handle_genome_size_some _ hne F r2 c lookup cw cf hcov
  rw [hg]
  simp only [Option.some_bind, List.drop_succ_cons, List.drop_zero]
  have hmult : (((top :: rest).insertionSort (fun a b => b.2.1 ≤ a.2.1)).map
      (fun s => s.1)).length > 1 := by
    have : 0 < rest.length := List.length_pos.mpr hrest
    omega
  have hcond : ((((top :: rest).insertionSort (fun a b => b.2.1 ≤ a.2.1)).map
      (fun s => s.1)).length > 1 ∧ (rest.map (fun s => s.2.1)).sum >
        c.contamination_fail_threshold.getD (c.contamination_threshold.getD 10)) :=
    ⟨hmult, hsum⟩
  rw [if_pos hcond, if_neg hne, if_neg (not_not_intro hcond)]
  refine ⟨_, rfl, rfl, rfl, ?_, ?_, ?_⟩
  · show r3.mlst_st = _
    rw [gm1, hm1, ← hR]
    rfl
  · show r3.mlst_status = _
    rw [gm2, hm2, ← hR]
    rfl
  · show r3.mlst_message = _
    rw [gm3, hm3, ← hR]
    rfl

/-- Witness for C5: the specification's concrete scenario — species list
A at 85% and B at 15% with contamination fail threshold 10 — skips typing
and keeps the blank MLST fields. -/
theorem contaminated_sample_skips_typing_witness :
    (([(("B", 15, 1) : SpeciesEntry)].map (fun s => s.2.1)).sum >
      (({ contamination_warn_threshold := some 5, contamination_fail_threshold := some 10,
          coverage_warn_threshold := some 20, coverage_fail_threshold := some 30 } :
        Config).contamination_fail_threshold.getD
          (({ contamination_warn_threshold := some 5, contamination_fail_threshold := some 10,
              coverage_warn_threshold := some 20, coverage_fail_threshold := some 30 } :
            Config).contamination_threshold.getD 10))) ∧
    ∃ o, run_one_sample_core "sampleS" [("A", 85, 10), ("B", 15, 1)] "" {}
        { contamination_warn_threshold := some 5, contamination_fail_threshold := some 10,
          coverage_warn_threshold := some 20, coverage_fail_threshold := some 30 }
        (fun _ => (0, 0, 0)) (fun _ r => r) = some o ∧
      o.mlst_invoked = false ∧
      o.record.species_status = FAILED ∧
      o.record.mlst_st = (blank_sample_results "sampleS").mlst_st ∧
      o.record.mlst_status = (blank_sample_results "sampleS").mlst_status ∧
      o.record.mlst_message = (blank_sample_results "sampleS").mlst_message :=
  ⟨by norm_num [List.sum_cons, List.sum_nil],
   contaminated_sample_skips_typing "sampleS" "" ("A", 85, 10) [("B", 15, 1)] {}
     { contamination_warn_threshold := some 5, contamination_fail_threshold := some 10,
       coverage_warn_threshold := some 20, coverage_fail_threshold := some 30 }
     (fun _ => (0, 0, 0)) (fun _ r => r) 20 30 5 10 rfl rfl (by decide)
     (by norm_num [List.sum_cons, List.sum_nil])⟩

set_option maxHeartbeats 1000000 in
/-- Claim C6.  GC soft failure is a pure frame property: when the top species
has positive GC bounds and the observed GC content lies outside both the
exact range and the expanded tolerance band (bounds widened by
bound × tolerance fraction), `handle_genome_size` writes only the
`gc_content_message` field ("outside expected range") in that branch and
leaves `gc_content_status` exactly as it was before the call (the
blank-record default FAILED when the record came from the blank
initialiser); every field outside the function's coverage-alt/genome-size/GC
write set equals its input value. -/
theorem gc_soft_failure_frame (top : String) (rest : List String)
    (fastpStats : FastpStats) (r : SampleRecord) (c : Config)
    (lookup : String → ℚ × ℚ × ℚ) (cw cf gsize glow ghigh frac : ℚ)
    (hcov : resolvedCoverageThresholds c = some (cw, cf))
    (hlk : lookup top = (gsize, glow, ghigh))
    (hfrac : frac = (if c.gc_fail_percentage.getD 5 > 1 then
        c.gc_fail_percentage.getD 5 / 100 else c.gc_fail_percentage.getD 5))
    (hl : 0 < glow) (hh : 0 < ghigh)
    (hin : ¬(glow ≤ fastpStats.gc_content ∧ fastpStats.gc_content ≤ ghigh))
    (hband : ¬(glow - glow * frac ≤ fastpStats.gc_content ∧
               fastpStats.gc_content ≤ ghigh + ghigh * frac)) :
    ∃ r', handle_genome_size (top :: rest) fastpStats r c lookup = some r' ∧
      r'.gc_content_status = r.gc_content_status ∧
      r'.gc_content_message =
        s!"GC content {fastpStats.gc_content}% outside expected range ({glow}-{ghigh}%)" ∧
      r' = { r with
              coverage_alt_estimate := r'.coverage_alt_estimate
              coverage_alt_status := r'.coverage_alt_status
              coverage_alt_message := r'.coverage_alt_message
              genome_size_expected := r'.genome_size_expected
              gc_content_lower := r'.gc_content_lower
              gc_content_upper := r'.gc_content_upper
              gc_content_message := r'.gc_content_message } := by
  subst hfrac
  unfold handle_genome_size
  rw [hcov]
  simp only [Option.bind_eq_bind, Option.some_bind, hlk]
  refine ⟨_, rfl, ?_, ?_, ?_⟩ <;>
    · split_ifs <;> first | rfl | tauto

/-- Witness for C6: GC bounds [30, 40] with 5% tolerance and observed GC 10 —
far outside the band; the status field is exactly the blank default FAILED
and only the message changes in the GC branch. -/
theorem gc_soft_failure_frame_witness :
    (0 : ℚ) < 30 ∧
    ∃ r', handle_genome_size ["SpeciesX"] { gc_content := 10 }
        (blank_sample_results "sample6")
        { coverage_warn_threshold := some 20, coverage_fail_threshold := some 30,
          gc_fail_percentage := some 5 }
        (fun _ => (100, 30, 40)) = some r' ∧
      r'.gc_content_status = (blank_sample_results "sample6").gc_content_status ∧
      r'.gc_content_message =
        s!"GC content {(({ gc_content := 10 } : FastpStats)).gc_content}% outside expected range ({(30 : ℚ)}-{(40 : ℚ)}%)" ∧
      r' = { blank_sample_results "sample6" with
              coverage_alt_estimate := r'.coverage_alt_estimate
              coverage_alt_status := r'.coverage_alt_status
              coverage_alt_message := r'.coverage_alt_message
              genome_size_expected := r'.genome_size_expected
              gc_content_lower := r'.gc_content_lower
              gc_content_upper := r'.gc_content_upper
              gc_content_message := r'.gc_content_message } :=
  ⟨by norm_num,
   gc_soft_failure_frame "SpeciesX" [] { gc_content := 10 }
     (blank_sample_results "sample6")
     { coverage_warn_threshold := some 20, coverage_fail_threshold := some 30,
       gc_fail_percentage := some 5 }
     (fun _ => (100, 30, 40)) 20 30 100 30 40 (5 / 100) rfl rfl (by norm_num)
     (by norm_num) (by norm_num) (by norm_num) (by norm_num)⟩

/-- Counterexample to claim C7 as stated.  With 1000 reads and an N-content
rate of 50% — far above the configured (default 0.001, i.e. 0.1%) threshold —
the status is WARNING, never FAILED, refuting the claimed three-tier
lower-is-better policy with a FAILED tier. -/
theorem n_content_claim_counterexample :
    (handle_n_content_results { read_total_reads := 1000, n_content_rate := 50 }
        {}).n_content_status = WARNING ∧
    (50 : ℚ) > (1 / 1000) * 100 ∧ (WARNING ≠ FAILED) := by
  refine ⟨?_, by norm_num, by decide⟩
  norm_num [handle_n_content_results]

/-- Claim C7 (amended).  N-content is a two-tier metric with a single
threshold: for every input with total reads > 0 the status is PASSED when
the rate is at most threshold × 100 and WARNING otherwise; FAILED occurs
only for zero total reads, so the status is never FAILED once reads were
processed. -/
theorem n_content_single_threshold (fp : FastpStats) (c : Config)
    (h : 0 < fp.read_total_reads) :
    (handle_n_content_results fp c).n_content_status =
      (if fp.n_content_rate ≤ (c.n_content_threshold.getD (1 / 1000)) * 100 then PASSED
       else WARNING) ∧
    (handle_n_content_results fp c).n_content_status ≠ FAILED := by
  unfold handle_n_content_results
  rw [if_neg (by omega)]
  constructor
  · split_ifs <;> rfl
  · split_ifs <;> simp

/-- Witness for C7 (amended): 1000 reads with a 50% N-content rate under the
default threshold gives WARNING, not FAILED. -/
theorem n_content_single_threshold_witness :
    0 < (({ read_total_reads := 1000, n_content_rate := 50 } : FastpStats)).read_total_reads ∧
    (handle_n_content_results { read_total_reads := 1000, n_content_rate := 50 }
        {}).n_content_status =
      (if (({ read_total_reads := 1000, n_content_rate := 50 } :
          FastpStats)).n_content_rate ≤
          ((({} : Config)).n_content_threshold.getD (1 / 1000)) * 100 then PASSED
       else WARNING) ∧
    (handle_n_content_results { read_total_reads := 1000, n_content_rate := 50 }
        {}).n_content_status ≠ FAILED :=
  ⟨by decide,
   (n_content_single_threshold { read_total_reads := 1000, n_content_rate := 50 } {}
     (by decide)).1,
   (n_content_single_threshold { read_total_reads := 1000, n_content_rate := 50 } {}
     (by decide)).2⟩

/-- Counterexample to claim C8 as stated.  The filenames `sample1.fastq` and
`sample2.fastq` end with neither `_R1`/`_R2` nor `_1`/`_2` before their
extension, so under the claimed membership condition neither belongs to a
pair side and no pair may be emitted; the code nevertheless emits the pair
`("sample", ...)` — a bare trailing digit is accepted. -/
theorem pair_discovery_claim_counterexample :
    locate_read_file_pairs "data" ["sample1.fastq", "sample2.fastq"]
      = [("sample", "data/sample1.fastq", "data/sample2.fastq")] ∧
    specPairSide "sample1.fastq" = false ∧ specPairSide "sample2.fastq" = false := by
  decide

set_option maxHeartbeats 800000 in
/-- Claim C8 (amended).  Pair discovery: a file belongs to a pair side
precisely when its name decomposes as a non-empty stem followed by a digit
`1`/`2` (an `_R` before the digit being a special case of a longer stem) and
a recognised FASTQ extension — the underscore before the digit is
conventional but not required.  Over any list of filenames the discovery
function emits at most one pair per base name, a pair exists for a base name
exactly when both an R1-side and an R2-side file classify to it, both
recorded paths come from files classified to the respective sides, and base
names with only one member present yield no pair. -/
theorem pair_discovery_characterisation :
    (∀ name : String, (classifyReadFile name).isSome = true ↔
      ∃ stem d ext, stem ≠ [] ∧ (d = '1' ∨ d = '2') ∧ extMatches ext = true ∧
        name.toList = stem ++ d :: ext) ∧
    ∀ directory files,
      ((locate_read_file_pairs directory files).map Prod.fst).Nodup ∧
      (∀ b, (∃ r1 r2, (b, r1, r2) ∈ locate_read_file_pairs directory files) ↔
        ((∃ f ∈ files, classifyReadFile f = some (b, true)) ∧
         (∃ f ∈ files, classifyReadFile f = some (b, false)))) ∧
      (∀ b r1 r2, (b, r1, r2) ∈ locate_read_file_pairs directory files →
        (∃ f ∈ files, classifyReadFile f = some (b, true) ∧ r1 = directory ++ "/" ++ f) ∧
        (∃ f ∈ files, classifyReadFile f = some (b, false) ∧ r2 = directory ++ "/" ++ f)) := by
  have hiff := classifyReadFile_isSome_iff
  refine ⟨hiff, fun directory files => ⟨?_, ?_, ?_⟩⟩
  · exact (keys_nodup_buildPairs directory files).sublist
      (locate_keys_sublist (buildPairs directory files))
  · intro b
    have hnd := keys_nodup_buildPairs directory files
    constructor
    · rintro ⟨r1, r2, hmem⟩
      obtain ⟨p, hp, hpe⟩ := List.mem_filterMap.mp hmem
      rw [outFn_eq_some] at hpe
      subst hpe
      have hl := lookupBase_of_mem _ _ _ hnd hp
      constructor
      · exact (side_buildPairs directory files b true).mp ⟨_, hl, by simp [sideOf]⟩
      · exact (side_buildPairs directory files b false).mp ⟨_, hl, by simp [sideOf]⟩
    · rintro ⟨h1, h2⟩
      obtain ⟨e1, hl1, hs1⟩ := (side_buildPairs directory files b true).mpr h1
      obtain ⟨e2, hl2, hs2⟩ := (side_buildPairs directory files b false).mpr h2
      have hee : e1 = e2 := Option.some.inj (hl1.symm.trans hl2)
      subst hee
      obtain ⟨r1, hr1⟩ := Option.isSome_iff_exists.mp hs1
      obtain ⟨r2, hr2⟩ := Option.isSome_iff_exists.mp hs2
      refine ⟨r1, r2, List.mem_filterMap.mpr ⟨(b, e1), mem_of_lookupBase _ _ _ hl1, ?_⟩⟩
      rw [outFn_eq_some]
      have he1 : e1.1 = some r1 := by simpa [sideOf] using hr1
      have he2 : e1.2 = some r2 := by simpa [sideOf] using hr2
      obtain ⟨x, y⟩ := e1
      simp_all
  · intro b r1 r2 hmem
    have hnd := keys_nodup_buildPairs directory files
    obtain ⟨p, hp, hpe⟩ := List.mem_filterMap.mp hmem
    rw [outFn_eq_some] at hpe
    subst hpe
    have hl := lookupBase_of_mem _ _ _ hnd hp
    constructor
    · rcases path_buildPairs_aux directory files b true []
          (some r1, some r2) r1 hl (by simp [sideOf]) with ⟨e', he', _⟩ | ⟨f, hf, hcf, hpf⟩
      · exact absurd he' (by simp [lookupBase])
      · exact ⟨f, hf, hcf, hpf⟩
    · rcases path_buildPairs_aux directory files b false []
          (some r1, some r2) r2 hl (by simp [sideOf]) with ⟨e', he', _⟩ | ⟨f, hf, hcf, hpf⟩
      · exact absurd he' (by simp [lookupBase])
      · exact ⟨f, hf, hcf, hpf⟩

/-- Witness for C8 (amended): the files `x_1.fq` and `x_2.fq` classify to the
two sides of base `x`, and the theorem yields the emitted pair. -/
theorem pair_discovery_characterisation_witness :
    ((∃ f ∈ ["x_1.fq", "x_2.fq"], classifyReadFile f = some ("x", true)) ∧
     (∃ f ∈ ["x_1.fq", "x_2.fq"], classifyReadFile f = some ("x", false))) ∧
    (∃ r1 r2, ("x", r1, r2) ∈ locate_read_file_pairs "d" ["x_1.fq", "x_2.fq"]) :=
  ⟨⟨⟨"x_1.fq", by decide, by decide⟩, ⟨"x_2.fq", by decide, by decide⟩⟩,
   ((pair_discovery_characterisation.2 "d" ["x_1.fq", "x_2.fq"]).2.1 "x").mpr
     ⟨⟨"x_1.fq", by decide, by decide⟩, ⟨"x_2.fq", by decide, by decide⟩⟩⟩

/-- Counterexample to claim C9 as stated.  With one per-sample report
`s1/a_summary.csv` and the merge output written to `data_dir` under the name
`b_summary.csv`, the second run collects the first run's output as one of its
own inputs and produces a different (row-duplicating) merged file, refuting
the claim's universal quantification over output files. -/
theorem merge_idempotence_claim_counterexample :
    (["b_summary.csv"] ∈ (summaryInputs (runMerge
        (⟨[], [("s1", [⟨"a_summary.csv", [["h"], ["r"]]⟩])]⟩ : DataDir)
        "b_summary.csv")).map Prod.fst) ∧
    summary_dir (runMerge
        (⟨[], [("s1", [⟨"a_summary.csv", [["h"], ["r"]]⟩])]⟩ : DataDir) "b_summary.csv") ≠
      summary_dir (⟨[], [("s1", [⟨"a_summary.csv", [["h"], ["r"]]⟩])]⟩ : DataDir) := by
  decide

/-- Claim C9 (amended).  Merge self-exclusion and idempotence hold for the
output name the pipeline actually uses: when the merged output is written to
the top level of the data directory as `final_summary.csv`, the merge never
collects the output file itself as an input, and a second run over the
directory with the first run's output present produces output identical to
the first run's. -/
theorem merge_final_summary_idempotent (d : DataDir) :
    ["final_summary.csv"] ∉ (summaryInputs d).map Prod.fst ∧
    summary_dir (runMerge d "final_summary.csv") = summary_dir d := by
  refine ⟨final_summary_not_input d, ?_⟩
  unfold runMerge
  cases h : summary_dir d with
  | none => exact h
  | some rows =>
      have hw : summary_dir (writeTopFile d "final_summary.csv" rows) = summary_dir d := by
        unfold summary_dir
        rw [summaryInputs_writeTop_final]
      exact hw.trans h

/-- Witness for C9 (amended): on a concrete directory with one per-sample
report, re-running the merge after writing `final_summary.csv` reproduces the
first output. -/
theorem merge_final_summary_idempotent_witness :
    (["final_summary.csv"] ∉ (summaryInputs
        (⟨[], [("s1", [⟨"a_summary.csv", [["h"], ["r"]]⟩])]⟩ : DataDir)).map Prod.fst) ∧
    summary_dir (runMerge
        (⟨[], [("s1", [⟨"a_summary.csv", [["h"], ["r"]]⟩])]⟩ : DataDir)
        "final_summary.csv") =
      summary_dir (⟨[], [("s1", [⟨"a_summary.csv", [["h"], ["r"]]⟩])]⟩ : DataDir) :=
  merge_final_summary_idempotent ⟨[], [("s1", [⟨"a_summary.csv", [["h"], ["r"]]⟩])]⟩

end BactScout
